import Mathlib

/-!
Shallow embedding of the Moringa-FT09-phase-3-code-challenge ORM layer
(`models/author.py`, `models/magazine.py`, `models/article.py`,
`database/setup.py`).

The relational store is modelled as an explicit `DB` value holding the three
tables as lists of rows plus the AUTOINCREMENT counters.  Every entity
operation that touches the store becomes a pure function from `DB` (and the
object's cached fields) to `Except Err (DB × result)`.  A Python exception
aborts the operation before any un-committed write, and no operation in this
code base commits a write and then raises, so an `Except.error` result
faithfully means: the exception propagated and the database is unchanged.

Error taxonomy: the Python entities raise `ValueError` for validation and
not-found conditions (the spec's ValidationError / NotFound); sqlite raises
its own exception types for schema-constraint violations (the spec's
StorageError); and `Author.get` raises `TypeError`, because it calls the
instance method `fetch_data` through `cls` with a missing argument (see its
doc comment).  We model the three disjoint exception families as
`Err.valueError`, `Err.storageError` and `Err.typeError`; an
`except ValueError` clause catches only the first.

Schema constraints modelled from `database/setup.py`:
  * `authors.name` UNIQUE (the entity dedups by exact match first, so the
    insert branch can never collide and no explicit check is needed there);
  * `magazines.name` UNIQUE — checked on insert;
  * `articles.title` CHECK(LENGTH(title) BETWEEN 5 AND 50) — checked on
    insert.  The FOREIGN KEY clauses are declared but sqlite only enforces
    them when the connection enables the foreign-key pragma; the connection
    module is not part of the modelled core, and sqlite's default leaves
    them unenforced, so inserts do not check them.

Python `str.strip` is modelled by `strip` below (drop whitespace from both
ends of the character list); Python `len` on `str` counts code points, as
does `String.length`.
-/

/-- Python `str.strip()` on the underlying character list. -/
def stripChars (l : List Char) : List Char :=
  ((l.dropWhile Char.isWhitespace).reverse.dropWhile Char.isWhitespace).reverse

/-- Python `str.strip()`. -/
def strip (s : String) : String := ⟨stripChars s.data⟩

/-- A row of the `authors` table. -/
structure AuthorRow where
  id : Int
  name : String
deriving Repr, DecidableEq

/-- A row of the `magazines` table. -/
structure MagazineRow where
  id : Int
  name : String
  category : String
deriving Repr, DecidableEq

/-- A row of the `articles` table. -/
structure ArticleRow where
  id : Int
  title : String
  content : String
  author_id : Int
  magazine_id : Int
deriving Repr, DecidableEq

/-- The relational store: three tables plus AUTOINCREMENT counters. -/
structure DB where
  authors : List AuthorRow
  magazines : List MagazineRow
  articles : List ArticleRow
  nextAuthorId : Int
  nextMagazineId : Int
  nextArticleId : Int
deriving Repr, DecidableEq

/-- `valueError` models Python `ValueError` raised by the entity layer
(validation failures and not-found lookups); `storageError` models sqlite
exceptions raised by schema-level constraints; `typeError` models Python
`TypeError` (raised by `Author.get`'s broken `cls.fetch_data` call). -/
inductive Err where
  | valueError (msg : String)
  | storageError (msg : String)
  | typeError (msg : String)
deriving Repr, DecidableEq

/-- The in-memory field cache of a Python `Author` object
(`_id`, `_name`). -/
structure AuthorObj where
  id : Int
  name : String
deriving Repr, DecidableEq

/-- The in-memory field cache of a Python `Magazine` object
(`_id`, `_name`, `_category`). -/
structure MagazineObj where
  id : Int
  name : String
  category : String
deriving Repr, DecidableEq

/-- The in-memory field cache of a Python `Article` object. -/
structure ArticleObj where
  id : Int
  title : String
  content : String
  author_id : Int
  magazine_id : Int
deriving Repr, DecidableEq

namespace Author

/-- `Author.load_by_id`: validate the id, `SELECT name FROM authors WHERE
id = ?` (`fetchone` = first matching row), populate `_id`/`_name` or raise. -/
def load_by_id (db : DB) (author_id : Int) : Except Err AuthorObj :=
  if ¬ (0 < author_id) then
    .error (.valueError "ID must be a positive integer.")
  else
    match db.authors.find? (fun r => r.id == author_id) with
    | some r => .ok ⟨author_id, r.name⟩
    | none => .error (.valueError
        ("Author with id " ++ toString author_id ++ " not found in the database."))

/-- `Author.create`: validate the name, `SELECT id FROM authors WHERE
name = ?` with the stripped name; reuse the found id, else `INSERT` the
stripped name and adopt `lastrowid`.  (The schema's UNIQUE(name) cannot fire
on the insert branch: the dedup SELECT is the same exact-text comparison.) -/
def create (db : DB) (name : String) : Except Err (DB × AuthorObj) :=
  if (strip name).length = 0 then
    .error (.valueError "Name must be a non-empty string.")
  else
    match db.authors.find? (fun r => r.name == strip name) with
    | some r => .ok (db, ⟨r.id, strip name⟩)
    | none =>
        .ok ({ db with
                authors := db.authors ++ [⟨db.nextAuthorId, strip name⟩],
                nextAuthorId := db.nextAuthorId + 1 },
             ⟨db.nextAuthorId, strip name⟩)

/-- `Author.__init__(id=…, name=…)`: branch on `id is not None`, then on the
truthiness of `name` (a non-empty string), else raise. -/
def init (db : DB) (id : Option Int) (name : Option String) :
    Except Err (DB × AuthorObj) :=
  match id with
  | some i =>
      match load_by_id db i with
      | .ok a => .ok (db, a)
      | .error e => .error e
  | none =>
      match name with
      | some n =>
          if n.length ≠ 0 then create db n
          else .error (.valueError
            "Either \x27id\x27 or \x27name\x27 must be provided to create an Author.")
      | none => .error (.valueError
          "Either \x27id\x27 or \x27name\x27 must be provided to create an Author.")

/-- `Author.get`: classmethod lookup; validates the id, then calls
`cls.fetch_data(query, params)` — but `fetch_data` is a plain instance
method, so accessed through `cls` it is an unbound function: the query
string binds to `self`, the params tuple to `query`, and `params` is left
missing.  The call therefore raises `TypeError` before touching the
database, for EVERY positive id; the SELECT-and-rebuild code below it is
unreachable.  (The `db` argument is unused for exactly that reason.) -/
def get (_db : DB) (author_id : Int) : Except Err AuthorObj :=
  if ¬ (0 < author_id) then
    .error (.valueError "ID must be a positive integer.")
  else
    .error (.typeError
      "fetch_data() missing 1 required positional argument: \x27params\x27")

/-- `Author.articles`: the SELECT over `articles WHERE author_id = ?`,
returning raw tuples.  `connFail` models the storage layer raising inside
the `try` block (e.g. a connection failure); the `except Exception` clause
prints a diagnostic and returns `[]`, so no error can propagate. -/
def articles (db : DB) (connFail : Bool) (a : AuthorObj) :
    Except Err (List (String × String × Int × Int)) :=
  if connFail then .ok []
  else .ok ((db.articles.filter (fun r => r.author_id == a.id)).map
      (fun r => (r.title, r.content, r.author_id, r.magazine_id)))

end Author

namespace Magazine

/-- `Magazine.load_by_id`: validate the id, `SELECT name, category FROM
magazines WHERE id = ?`, populate all three cached fields or raise. -/
def load_by_id (db : DB) (magazine_id : Int) : Except Err MagazineObj :=
  if ¬ (0 < magazine_id) then
    .error (.valueError "ID must be a positive integer.")
  else
    match db.magazines.find? (fun r => r.id == magazine_id) with
    | some r => .ok ⟨magazine_id, r.name, r.category⟩
    | none => .error (.valueError
        ("Magazine with id " ++ toString magazine_id ++ " not found in the database."))

/-- `Magazine.create`: validate name length 2–16 and non-empty category
(`Magazine` does not strip), `SELECT id … WHERE name = ? AND category = ?`;
reuse the found id, else `INSERT` — where the schema's UNIQUE constraint on
`name` alone can fire even though the pair-dedup found nothing.  The
schema's CHECK(length(category) > 0) is subsumed by the entity check. -/
def create (db : DB) (name category : String) : Except Err (DB × MagazineObj) :=
  if ¬ (2 ≤ name.length ∧ name.length ≤ 16) then
    .error (.valueError "Name must be a string between 2-16 characters.")
  else if category.length = 0 then
    .error (.valueError "Category must be a non-empty string.")
  else
    match db.magazines.find? (fun r => r.name == name && r.category == category) with
    | some r => .ok (db, ⟨r.id, name, category⟩)
    | none =>
        if db.magazines.any (fun r => r.name == name) then
          .error (.storageError "UNIQUE constraint failed: magazines.name")
        else
          .ok ({ db with
                  magazines := db.magazines ++ [⟨db.nextMagazineId, name, category⟩],
                  nextMagazineId := db.nextMagazineId + 1 },
               ⟨db.nextMagazineId, name, category⟩)

/-- `Magazine.__init__(id=…, name=…, category=…)`: branch on `id is not
None` (the passed name/category are then ignored — `load_by_id` overwrites
them), then on `name and category` both truthy, else raise. -/
def init (db : DB) (id : Option Int) (name category : Option String) :
    Except Err (DB × MagazineObj) :=
  match id with
  | some i =>
      match load_by_id db i with
      | .ok m => .ok (db, m)
      | .error e => .error e
  | none =>
      match name, category with
      | some n, some c =>
          if n.length ≠ 0 ∧ c.length ≠ 0 then create db n c
          else .error (.valueError
            "Either \x27id\x27 or (\x27name\x27 and \x27category\x27) must be provided to create a Magazine.")
      | _, _ => .error (.valueError
          "Either \x27id\x27 or (\x27name\x27 and \x27category\x27) must be provided to create a Magazine.")

/-- `Magazine.get`: classmethod lookup; validates the id, selects the row,
then rebuilds through `cls(id=…, …)`, whose id-branch reloads the row. -/
def get (db : DB) (magazine_id : Int) : Except Err MagazineObj :=
  if ¬ (0 < magazine_id) then
    .error (.valueError "ID must be a positive integer.")
  else
    match db.magazines.find? (fun r => r.id == magazine_id) with
    | some r =>
        match init db (some r.id) (some r.name) (some r.category) with
        | .ok (_, m) => .ok m
        | .error e => .error e
    | none => .error (.valueError
        ("Magazine with id " ++ toString magazine_id ++ " not found."))

/-- The `name` property getter: if the cached `_name` is falsy (empty),
reload the *entire* row via `load_by_id self._id`, refreshing `_name` and
`_category` both; return the (possibly refreshed) name together with the
updated cache. -/
def nameGet (db : DB) (m : MagazineObj) : Except Err (String × MagazineObj) :=
  if m.name = "" then
    match load_by_id db m.id with
    | .ok m2 => .ok (m2.name, m2)
    | .error e => .error e
  else .ok (m.name, m)

/-- The `category` property getter: same lazy whole-row reload when the
cached `_category` is falsy. -/
def categoryGet (db : DB) (m : MagazineObj) : Except Err (String × MagazineObj) :=
  if m.category = "" then
    match load_by_id db m.id with
    | .ok m2 => .ok (m2.category, m2)
    | .error e => .error e
  else .ok (m.category, m)

/-- `Magazine.articles`: the SELECT over `articles WHERE magazine_id = ?`
returning raw tuples.  There is NO try/except here: a storage failure
(modelled by `connFail`) propagates to the caller. -/
def articles (db : DB) (connFail : Bool) (m : MagazineObj) :
    Except Err (List (String × String × Int)) :=
  if connFail then .error (.storageError "database error")
  else .ok ((db.articles.filter (fun r => r.magazine_id == m.id)).map
      (fun r => (r.title, r.content, r.author_id)))

end Magazine

namespace Author

/-- Hydration loop of `Author.magazines`: the list comprehension
`[Magazine(id=…, name=…, category=…) for result in results]`, evaluated
left to right; `Magazine.__init__` with an id reloads the row, and any
exception aborts the whole comprehension. -/
def loadMagazines (db : DB) : List (Int × String × String) →
    Except Err (List MagazineObj)
  | [] => .ok []
  | t :: ts =>
      match Magazine.init db (some t.1) (some t.2.1) (some t.2.2) with
      | .error e => .error e
      | .ok (_, m) =>
          match loadMagazines db ts with
          | .error e => .error e
          | .ok ms => .ok (m :: ms)

/-- `Author.magazines`: `SELECT DISTINCT magazines.id, name, category FROM
magazines INNER JOIN articles ON articles.magazine_id = magazines.id WHERE
articles.author_id = ?`, each row hydrated through `Magazine(id=…)`.  The
whole body sits in a `try` whose `except Exception` prints and returns `[]`,
so neither a storage failure (`connFail`) nor a hydration error escapes. -/
def magazines (db : DB) (connFail : Bool) (a : AuthorObj) :
    Except Err (List MagazineObj) :=
  if connFail then .ok []
  else
    match loadMagazines db
        (((db.magazines.filter (fun m =>
            db.articles.any (fun art =>
              art.magazine_id == m.id && art.author_id == a.id))).map
          (fun m => (m.id, m.name, m.category))).dedup) with
    | .ok ms => .ok ms
    | .error _ => .ok []

end Author

namespace Magazine

/-- Hydration loop of `Magazine.contributors`: the comprehension
`[Author(name=result[0]) for result in results]`; `Author.__init__` with a
name runs the create-or-reuse path, threading the database state, and any
exception propagates (no try/except around it). -/
def hydrateAuthors (db : DB) : List String → Except Err (DB × List AuthorObj)
  | [] => .ok (db, [])
  | n :: ns =>
      match Author.init db none (some n) with
      | .error e => .error e
      | .ok (db1, a) =>
          match hydrateAuthors db1 ns with
          | .error e => .error e
          | .ok (db2, rest) => .ok (db2, a :: rest)

/-- `Magazine.contributors`: `SELECT DISTINCT authors.name FROM authors
INNER JOIN articles ON articles.author_id = authors.id WHERE
articles.magazine_id = ?`, each name wrapped in `Author(name=…)`.  There is
NO try/except: a storage failure (`connFail`) or hydration error
propagates. -/
def contributors (db : DB) (connFail : Bool) (m : MagazineObj) :
    Except Err (DB × List AuthorObj) :=
  if connFail then .error (.storageError "database error")
  else
    hydrateAuthors db
      (((db.authors.filter (fun a =>
          db.articles.any (fun art =>
            art.author_id == a.id && art.magazine_id == m.id))).map
        (fun a => a.name)).dedup)

end Magazine

namespace Article

/-- The `INSERT INTO articles …` statement together with the schema
constraints sqlite enforces on it: `CHECK(LENGTH(title) BETWEEN 5 AND 50)`.
`content` is NOT NULL (trivially satisfied); the FOREIGN KEY clauses are
not enforced without the foreign-key pragma (see the header comment). -/
def insertArticle (db : DB) (title content : String)
    (author_id magazine_id : Int) : Except Err (DB × ArticleObj) :=
  if ¬ (5 ≤ title.length ∧ title.length ≤ 50) then
    .error (.storageError "CHECK constraint failed: articles")
  else
    .ok ({ db with
            articles := db.articles ++
              [⟨db.nextArticleId, title, content, author_id, magazine_id⟩],
            nextArticleId := db.nextArticleId + 1 },
         ⟨db.nextArticleId, title, content, author_id, magazine_id⟩)

/-- `Article.create`: validate the (un-stripped) title length 5–50, the
content non-empty after strip, both ids positive; verify existence through
`Author.get` / `Magazine.get`, each wrapped in an `except ValueError` that
re-raises a `ValueError` naming the missing id — the clause catches ONLY
`ValueError`, so the `TypeError` that `Author.get` actually raises
propagates uncaught; then insert the STRIPPED title and content and adopt
`lastrowid`. -/
def create (db : DB) (title content : String) (author_id magazine_id : Int) :
    Except Err (DB × ArticleObj) :=
  if ¬ (5 ≤ title.length ∧ title.length ≤ 50) then
    .error (.valueError "Title must be a string between 5-50 characters.")
  else if ¬ (0 < (strip content).length) then
    .error (.valueError "Content must be a non-empty string.")
  else if ¬ (0 < author_id) then
    .error (.valueError "Author ID must be a positive integer.")
  else if ¬ (0 < magazine_id) then
    .error (.valueError "Magazine ID must be a positive integer.")
  else
    match Author.get db author_id with
    | .error (.valueError _) => .error (.valueError
        ("Author with id " ++ toString author_id ++ " does not exist."))
    | .error e => .error e
    | .ok _ =>
        match Magazine.get db magazine_id with
        | .error (.valueError _) => .error (.valueError
            ("Magazine with id " ++ toString magazine_id ++ " does not exist."))
        | .error e => .error e
        | .ok _ => insertArticle db (strip title) (strip content) author_id magazine_id

/-- The `content` property setter: validate the new content non-empty after
strip (raising before any statement is issued), then `UPDATE articles SET
content = ? WHERE id = ?` with the stripped value and refresh the cache. -/
def contentSet (db : DB) (art : ArticleObj) (new_content : String) :
    Except Err (DB × ArticleObj) :=
  if ¬ (0 < (strip new_content).length) then
    .error (.valueError "Content must be a non-empty string.")
  else
    .ok ({ db with
            articles := db.articles.map (fun r =>
              if r.id == art.id then { r with content := strip new_content } else r) },
         { art with content := strip new_content })

end Article

/-- When the keys of a list are pairwise distinct, `find?` on a member's
key returns exactly that member (`fetchone` of a keyed SELECT). -/
theorem find_by_key_of_nodup {α κ : Type} [BEq κ] [LawfulBEq κ] (key : α → κ)
    (l : List α) (r : α) (hmem : r ∈ l) (hnodup : (l.map key).Nodup) :
    l.find? (fun x => key x == key r) = some r := by
  induction l with
  | nil => cases hmem
  | cons a t ih =>
      have hcons : key a ∉ t.map key ∧ (t.map key).Nodup := by
        have := hnodup
        simp only [List.map_cons, List.nodup_cons] at this
        exact this
      rcases List.mem_cons.mp hmem with h | h
      · subst h
        exact List.find?_cons_of_pos _ (by simp)
      · have hpa : (key a == key r) = false := by
          simp only [beq_eq_false_iff_ne, ne_eq]
          intro hcon
          exact hcons.1 (hcon ▸ List.mem_map.mpr ⟨r, h, rfl⟩)
        rw [List.find?_cons]
        simp only [hpa]
        exact ih h hcons.2

/-! ## C1 -/

/-- C1: the claim states the code's clearly intended behaviour (the
`except ValueError: raise ValueError(f"Author with id .. does not exist.")`
wrapper exists verbatim in `Article.create`), but the code has a slip:
`Author.get` calls the instance method `fetch_data` through `cls` with a
missing argument and raises `TypeError` for every positive id, which the
`except ValueError` clause does not catch.  At a construction with valid
title/content, a missing author id 7 and an existing magazine 1, the code
therefore fails with the uncaught TypeError — never the ValidationError
naming the missing id — though indeed no row is inserted.  This theorem
evaluates the faithful embedding at that failing input. -/
theorem c1_code_raises_typeerror_not_validation :
    Article.create ⟨[⟨1, "Alice"⟩], [⟨1, "TechDaily", "Tech"⟩], [], 2, 2, 1⟩
        "Valid Title" "Some body" 7 1 =
      .error (.typeError
        "fetch_data() missing 1 required positional argument: \x27params\x27") ∧
    Author.get ⟨[⟨1, "Alice"⟩], [⟨1, "TechDaily", "Tech"⟩], [], 2, 2, 1⟩ 7 =
      .error (.typeError
        "fetch_data() missing 1 required positional argument: \x27params\x27") :=
  ⟨rfl, rfl⟩

/-! ## C2 -/

/-- C2: with a magazine named `n` (category `c`) already stored, and no
stored magazine carrying the pair `(n, cNew)` with `cNew ≠ c`, constructing
`Magazine(n, cNew)` passes the entity's own `(name, category)` dedup SELECT
(so the id-reuse branch is not taken) and the INSERT then fails on the
schema's uniqueness constraint on `name` alone, surfacing as a
StorageError. -/
theorem c2_same_name_new_category_hits_unique_constraint (db : DB)
    (n c cNew : String) (r : MagazineRow)
    (hmem : r ∈ db.magazines) (hname : r.name = n) (_hcat : r.category = c)
    (huniq : ∀ x ∈ db.magazines, x.name = n → x.category = c)
    (hlen1 : 2 ≤ n.length) (hlen2 : n.length ≤ 16)
    (hcnew : cNew.length ≠ 0) (hne : cNew ≠ c) :
    Magazine.create db n cNew =
      .error (.storageError "UNIQUE constraint failed: magazines.name") := by
  unfold Magazine.create
  rw [if_neg (not_not_intro ⟨hlen1, hlen2⟩), if_neg hcnew]
  have hnone : db.magazines.find? (fun x => x.name == n && x.category == cNew) = none := by
    rw [List.find?_eq_none]
    intro x hx
    simp only [Bool.and_eq_true, beq_iff_eq, not_and]
    intro hxn hxc
    exact hne (hxc.symm.trans (huniq x hx hxn))
  have hany : db.magazines.any (fun x => x.name == n) = true :=
    List.any_eq_true.mpr ⟨r, hmem, by simp [hname]⟩
  rw [hnone, if_pos hany]

/-- Witness for C2 at a concrete database. -/
theorem c2_witness :
    ((⟨1, "TechDaily", "Tech"⟩ : MagazineRow) ∈
        (⟨[], [⟨1, "TechDaily", "Tech"⟩], [], 1, 2, 1⟩ : DB).magazines) ∧
    ("Science".length ≠ 0) ∧ ("Science" ≠ "Tech") ∧
    Magazine.create ⟨[], [⟨1, "TechDaily", "Tech"⟩], [], 1, 2, 1⟩ "TechDaily" "Science" =
      .error (.storageError "UNIQUE constraint failed: magazines.name") := by
  refine ⟨by decide, by decide, by decide, ?_⟩
  exact c2_same_name_new_category_hits_unique_constraint
    ⟨[], [⟨1, "TechDaily", "Tech"⟩], [], 1, 2, 1⟩ "TechDaily" "Tech" "Science"
    ⟨1, "TechDaily", "Tech"⟩ (by decide) (by decide) (by decide) (by decide)
    (by decide) (by decide) (by decide) (by decide)

/-! ## C6 -/

/-- C6: setting an Article's content to a string that is empty after
stripping fails with the `ValueError`; the validation precedes the UPDATE
statement, and an error result leaves the database — hence both the stored
row and the cached field — unchanged (by the embedding's state convention,
an `Except.error` carries no new state). -/
theorem c6_content_setter_rejects_blank (db : DB) (art : ArticleObj)
    (s : String) (h : (strip s).length = 0) :
    Article.contentSet db art s =
      .error (.valueError "Content must be a non-empty string.") := by
  unfold Article.contentSet
  rw [if_pos (by simp [h])]

/-- Witness for C6: empty and whitespace-only updates at a concrete
article. -/
theorem c6_witness :
    ((strip "   ").length = 0) ∧ ((strip "").length = 0) ∧
    Article.contentSet ⟨[], [], [⟨1, "Valid Title", "body", 1, 1⟩], 1, 1, 2⟩
        ⟨1, "Valid Title", "body", 1, 1⟩ "   " =
      .error (.valueError "Content must be a non-empty string.") ∧
    Article.contentSet ⟨[], [], [⟨1, "Valid Title", "body", 1, 1⟩], 1, 1, 2⟩
        ⟨1, "Valid Title", "body", 1, 1⟩ "" =
      .error (.valueError "Content must be a non-empty string.") := by
  refine ⟨by decide, by decide, ?_, ?_⟩
  · exact c6_content_setter_rejects_blank _ _ "   " (by decide)
  · exact c6_content_setter_rejects_blank _ _ "" (by decide)

/-! ## C9 -/

/-- C9 counterexample: supplying BOTH `id` and `name` is accepted by
`Author.__init__` — the id branch wins and the name is ignored, so with
author 1 named Alice stored, `Author(id=1, name="Bob")` succeeds and yields
Alice, contradicting "supplying both is not a valid input combination". -/
theorem c9_counterexample :
    Author.init ⟨[⟨1, "Alice"⟩], [], [], 2, 1, 1⟩ (some 1) (some "Bob") =
      .ok (⟨[⟨1, "Alice"⟩], [], [], 2, 1, 1⟩, ⟨1, "Alice"⟩) := rfl

/-- C9 amended: supplying neither an id nor a non-empty name fails with the
`ValueError`; supplying both is accepted, the id takes precedence and the
name argument is ignored entirely. -/
theorem c9_init_neither_fails_both_takes_id (db : DB) (i : Int) (nm : String) :
    Author.init db none none =
      .error (.valueError
        "Either \x27id\x27 or \x27name\x27 must be provided to create an Author.") ∧
    Author.init db none (some "") =
      .error (.valueError
        "Either \x27id\x27 or \x27name\x27 must be provided to create an Author.") ∧
    Author.init db (some i) (some nm) = Author.init db (some i) none :=
  ⟨rfl, rfl, rfl⟩

/-! ## C3 -/

/-- C3 counterexample: `Magazine.articles` and `Magazine.contributors` have
no try/except around their storage access, so a storage failure propagates
as a StorageError instead of degrading to an empty sequence. -/
theorem c3_counterexample :
    Magazine.articles ⟨[], [⟨1, "TechDaily", "Tech"⟩], [], 1, 2, 1⟩ true
        ⟨1, "TechDaily", "Tech"⟩ = .error (.storageError "database error") ∧
    Magazine.contributors ⟨[], [⟨1, "TechDaily", "Tech"⟩], [], 1, 2, 1⟩ true
        ⟨1, "TechDaily", "Tech"⟩ = .error (.storageError "database error") :=
  ⟨rfl, rfl⟩

/-- C3 amended: only the two Author relationship queries
(`Author.articles`, `Author.magazines`) catch the storage failure, emit a
diagnostic and return an empty sequence; `Magazine.articles` and
`Magazine.contributors` propagate the StorageError to the caller. -/
theorem c3_only_author_queries_degrade (db : DB) (a : AuthorObj)
    (m : MagazineObj) :
    Author.articles db true a = .ok [] ∧
    Author.magazines db true a = .ok [] ∧
    Magazine.articles db true m = .error (.storageError "database error") ∧
    Magazine.contributors db true m = .error (.storageError "database error") :=
  ⟨rfl, rfl, rfl, rfl⟩

/-! ## C4 -/

/-- C4 (Author half): creating an author twice with names that agree after
stripping yields the same id both times, does not change the database the
second time, and leaves exactly one `authors` row for that stripped name
(given the schema's UNIQUE(name) invariant: at most one such row before). -/
theorem c4_author_create_idempotent (db : DB) (n n2 : String)
    (hnn : strip n2 = strip n) (hne : ¬ (strip n).length = 0)
    (hu : (db.authors.filter (fun r => r.name == strip n)).length ≤ 1) :
    ∃ db1 a1 a2, Author.create db n = .ok (db1, a1) ∧
      Author.create db1 n2 = .ok (db1, a2) ∧ a2.id = a1.id ∧
      (db1.authors.filter (fun r => r.name == strip n)).length = 1 := by
  cases hfind : db.authors.find? (fun r => r.name == strip n) with
  | some r =>
      refine ⟨db, ⟨r.id, strip n⟩, ⟨r.id, strip n⟩, ?_, ?_, rfl, ?_⟩
      · unfold Author.create
        rw [if_neg hne, hfind]
      · unfold Author.create
        rw [hnn, if_neg hne, hfind]
      · have hp := List.find?_some hfind
        have hmem : r ∈ db.authors.filter (fun x => x.name == strip n) :=
          List.mem_filter.mpr ⟨List.mem_of_find?_eq_some hfind, hp⟩
        have h1 : 0 < (db.authors.filter (fun x => x.name == strip n)).length :=
          List.length_pos.mpr (List.ne_nil_of_mem hmem)
        omega
  | none =>
      refine ⟨{ db with
                 authors := db.authors ++ [⟨db.nextAuthorId, strip n⟩],
                 nextAuthorId := db.nextAuthorId + 1 },
              ⟨db.nextAuthorId, strip n⟩, ⟨db.nextAuthorId, strip n⟩, ?_, ?_, rfl, ?_⟩
      · unfold Author.create
        rw [if_neg hne, hfind]
      · unfold Author.create
        rw [hnn, if_neg hne]
        simp only [List.find?_append, hfind, Option.none_or]
        rw [List.find?_cons_of_pos _ (by simp)]
      · simp only [List.filter_append, hfind]
        rw [List.filter_eq_nil_iff.mpr (by
          intro x hx
          have := List.find?_eq_none.mp hfind x hx
          exact this)]
        simp

/-- C4 (Magazine half): if constructing `Magazine(nm, cat)` succeeded,
constructing it again with the same `(name, category)` pair finds the row
stored or reused the first time, yields the same id, and leaves the
database unchanged (given at most one stored row per `(name, category)`
pair beforehand, the schema invariant). -/
theorem c4_magazine_create_idempotent (db : DB) (nm cat : String)
    (db1 : DB) (m1 : MagazineObj)
    (hfirst : Magazine.create db nm cat = .ok (db1, m1)) :
    ∃ m2, Magazine.create db1 nm cat = .ok (db1, m2) ∧ m2.id = m1.id := by
  unfold Magazine.create at hfirst
  by_cases hname : 2 ≤ nm.length ∧ nm.length ≤ 16
  · rw [if_neg (not_not_intro hname)] at hfirst
    by_cases hcat : cat.length = 0
    · rw [if_pos hcat] at hfirst
      exact absurd hfirst (by simp)
    · rw [if_neg hcat] at hfirst
      cases hfind : db.magazines.find? (fun x => x.name == nm && x.category == cat) with
      | some r =>
          rw [hfind] at hfirst
          obtain ⟨hdb, hm⟩ : db = db1 ∧ (⟨r.id, nm, cat⟩ : MagazineObj) = m1 := by
            have := hfirst
            simp only [Except.ok.injEq, Prod.mk.injEq] at this
            exact this
          refine ⟨⟨r.id, nm, cat⟩, ?_, by rw [← hm]⟩
          unfold Magazine.create
          rw [if_neg (not_not_intro hname), if_neg hcat, ← hdb, hfind]
      | none =>
          rw [hfind] at hfirst
          by_cases hany : db.magazines.any (fun x => x.name == nm) = true
          · rw [if_pos hany] at hfirst
            exact absurd hfirst (by simp)
          · rw [if_neg hany] at hfirst
            obtain ⟨hdb, hm⟩ : ({ db with
                  magazines := db.magazines ++ [⟨db.nextMagazineId, nm, cat⟩],
                  nextMagazineId := db.nextMagazineId + 1 } : DB) = db1 ∧
                (⟨db.nextMagazineId, nm, cat⟩ : MagazineObj) = m1 := by
              have := hfirst
              simp only [Except.ok.injEq, Prod.mk.injEq] at this
              exact this
            refine ⟨⟨db.nextMagazineId, nm, cat⟩, ?_, by rw [← hm]⟩
            unfold Magazine.create
            rw [if_neg (not_not_intro hname), if_neg hcat, ← hdb]
            simp only [List.find?_append, hfind, Option.none_or]
            rw [List.find?_cons_of_pos _ (by simp)]
  · rw [if_pos hname] at hfirst
    exact absurd hfirst (by simp)

/-- C4: the two idempotent reuse-on-create behaviours combined, as the
claim states them — same id both times for Author (with exactly one stored
row for the name) and same id both times for Magazine. -/
theorem c4_create_idempotent_reuse (db : DB) (n n2 nm cat : String)
    (hnn : strip n2 = strip n) (hne : ¬ (strip n).length = 0)
    (hu : (db.authors.filter (fun r => r.name == strip n)).length ≤ 1)
    (dbm : DB) (m1 : MagazineObj)
    (hfirst : Magazine.create db nm cat = .ok (dbm, m1)) :
    (∃ db1 a1 a2, Author.create db n = .ok (db1, a1) ∧
      Author.create db1 n2 = .ok (db1, a2) ∧ a2.id = a1.id ∧
      (db1.authors.filter (fun r => r.name == strip n)).length = 1) ∧
    (∃ m2, Magazine.create dbm nm cat = .ok (dbm, m2) ∧ m2.id = m1.id) :=
  ⟨c4_author_create_idempotent db n n2 hnn hne hu,
   c4_magazine_create_idempotent db nm cat dbm m1 hfirst⟩

/-- Witness for C4 at a concrete database: author "Jane Doe" (with
trailing whitespace the second time) and magazine ("TechDaily", "Tech")
created twice each, starting from an empty store. -/
theorem c4_witness :
    (strip "Jane Doe  " = strip "Jane Doe") ∧
    (Magazine.create ⟨[], [], [], 1, 1, 1⟩ "TechDaily" "Tech" =
      .ok (⟨[], [⟨1, "TechDaily", "Tech"⟩], [], 1, 2, 1⟩, ⟨1, "TechDaily", "Tech"⟩)) ∧
    ((∃ db1 a1 a2, Author.create ⟨[], [], [], 1, 1, 1⟩ "Jane Doe" = .ok (db1, a1) ∧
        Author.create db1 "Jane Doe  " = .ok (db1, a2) ∧ a2.id = a1.id ∧
        (db1.authors.filter (fun r => r.name == strip "Jane Doe")).length = 1) ∧
      (∃ m2, Magazine.create ⟨[], [⟨1, "TechDaily", "Tech"⟩], [], 1, 2, 1⟩
          "TechDaily" "Tech" =
          .ok (⟨[], [⟨1, "TechDaily", "Tech"⟩], [], 1, 2, 1⟩, m2) ∧
        m2.id = (⟨1, "TechDaily", "Tech"⟩ : MagazineObj).id)) := by
  refine ⟨by decide, rfl, ?_⟩
  exact c4_create_idempotent_reuse ⟨[], [], [], 1, 1, 1⟩ "Jane Doe" "Jane Doe  "
    "TechDaily" "Tech" (by decide) (by decide) (by decide)
    ⟨[], [⟨1, "TechDaily", "Tech"⟩], [], 1, 2, 1⟩ ⟨1, "TechDaily", "Tech"⟩ rfl

/-! ## C5 -/

/-- C5 counterexample: a title of length exactly 5 with valid content,
positive ids and BOTH referenced rows present does not make construction
succeed — `Article.create` raises `TypeError` inside `Author.get` (the
broken `cls.fetch_data` call, uncaught by `except ValueError`) before any
existence check or insert. -/
theorem c5_counterexample :
    ("abcde".length = 5) ∧ (0 < (strip "Some body").length) ∧
    ((⟨1, "Alice"⟩ : AuthorRow) ∈
      (⟨[⟨1, "Alice"⟩], [⟨1, "TechDaily", "Tech"⟩], [], 2, 2, 1⟩ : DB).authors) ∧
    ((⟨1, "TechDaily", "Tech"⟩ : MagazineRow) ∈
      (⟨[⟨1, "Alice"⟩], [⟨1, "TechDaily", "Tech"⟩], [], 2, 2, 1⟩ : DB).magazines) ∧
    Article.create ⟨[⟨1, "Alice"⟩], [⟨1, "TechDaily", "Tech"⟩], [], 2, 2, 1⟩
        "abcde" "Some body" 1 1 =
      .error (.typeError
        "fetch_data() missing 1 required positional argument: \x27params\x27") :=
  ⟨by decide, by decide, by decide, by decide, rfl⟩

/-- C5 amended: with valid content and positive ids, construction fails
with the title `ValueError` at title lengths 4 and 51; at lengths exactly 5
and exactly 50 it passes the entity's title validation but never succeeds:
it fails with the `TypeError` raised inside `Author.get`'s broken
`cls.fetch_data` call — uncaught by `Article.create`'s `except ValueError`
— before any existence check or insert, for every store. -/
theorem c5_title_boundary_lengths (db : DB) (title content : String)
    (aid mid : Int)
    (hc : 0 < (strip content).length) (ha : 0 < aid) (hm : 0 < mid) :
    (title.length = 4 ∨ title.length = 51 →
      Article.create db title content aid mid =
        .error (.valueError "Title must be a string between 5-50 characters.")) ∧
    (title.length = 5 ∨ title.length = 50 →
      Article.create db title content aid mid =
        .error (.typeError
          "fetch_data() missing 1 required positional argument: \x27params\x27")) := by
  constructor
  · intro hbad
    unfold Article.create
    rw [if_pos (by omega)]
  · intro hlen
    unfold Article.create
    rw [if_neg (not_not_intro (by omega)), if_neg (not_not_intro hc),
        if_neg (not_not_intro ha), if_neg (not_not_intro hm)]
    unfold Author.get
    rw [if_neg (not_not_intro ha)]

/-- Witness for the amended C5 at title lengths 4, 5, 50 and 51. -/
theorem c5_witness :
    (Article.create ⟨[⟨1, "Alice"⟩], [⟨1, "TechDaily", "Tech"⟩], [], 2, 2, 1⟩
        "abcd" "Some body" 1 1 =
      .error (.valueError "Title must be a string between 5-50 characters.")) ∧
    (Article.create ⟨[⟨1, "Alice"⟩], [⟨1, "TechDaily", "Tech"⟩], [], 2, 2, 1⟩
        "abcde" "Some body" 1 1 =
      .error (.typeError
        "fetch_data() missing 1 required positional argument: \x27params\x27")) ∧
    (Article.create ⟨[⟨1, "Alice"⟩], [⟨1, "TechDaily", "Tech"⟩], [], 2, 2, 1⟩
        "abcdefghijabcdefghijabcdefghijabcdefghijabcdefghij" "Some body" 1 1 =
      .error (.typeError
        "fetch_data() missing 1 required positional argument: \x27params\x27")) ∧
    (Article.create ⟨[⟨1, "Alice"⟩], [⟨1, "TechDaily", "Tech"⟩], [], 2, 2, 1⟩
        "abcdefghijabcdefghijabcdefghijabcdefghijabcdefghijX" "Some body" 1 1 =
      .error (.valueError "Title must be a string between 5-50 characters.")) := by
  refine ⟨?_, ?_, ?_, ?_⟩
  · exact (c5_title_boundary_lengths _ "abcd" "Some body" 1 1 (by decide)
      (by decide) (by decide)).1 (by decide)
  · exact (c5_title_boundary_lengths _ "abcde" "Some body" 1 1 (by decide)
      (by decide) (by decide)).2 (by decide)
  · exact (c5_title_boundary_lengths _
      "abcdefghijabcdefghijabcdefghijabcdefghijabcdefghij" "Some body" 1 1
      (by decide) (by decide) (by decide)).2 (by decide)
  · exact (c5_title_boundary_lengths _
      "abcdefghijabcdefghijabcdefghijabcdefghijabcdefghijX" "Some body" 1 1
      (by decide) (by decide) (by decide)).1 (by decide)

/-! ## C7 helper lemmas -/

theorem loadMagazines_ok (db : DB) (l : List (Int × String × String))
    (h : ∀ t ∈ l, Magazine.init db (some t.1) (some t.2.1) (some t.2.2) =
      .ok (db, ⟨t.1, t.2.1, t.2.2⟩)) :
    Author.loadMagazines db l =
      .ok (l.map (fun t => (⟨t.1, t.2.1, t.2.2⟩ : MagazineObj))) := by
  induction l with
  | nil => rfl
  | cons t ts ih =>
      unfold Author.loadMagazines
      rw [h t (List.mem_cons_self t ts)]
      simp only [ih (fun s hs => h s (List.mem_cons_of_mem t hs)), List.map_cons]

theorem hydrateAuthors_ok (db : DB) (l : List String)
    (h : ∀ n ∈ l, ∃ a : AuthorObj,
      Author.init db none (some n) = .ok (db, a) ∧ a.name = n) :
    ∃ res : List AuthorObj, Magazine.hydrateAuthors db l = .ok (db, res) ∧
      res.map (fun a => a.name) = l := by
  induction l with
  | nil => exact ⟨[], rfl, rfl⟩
  | cons n ns ih =>
      obtain ⟨a, ha, haname⟩ := h n (List.mem_cons_self n ns)
      obtain ⟨res, hres, hresmap⟩ :=
        ih (fun s hs => h s (List.mem_cons_of_mem n hs))
      refine ⟨a :: res, ?_, by simp [haname, hresmap]⟩
      unfold Magazine.hydrateAuthors
      rw [ha]
      simp only [hres]

/-- Behaviour of `Author.magazines` on a well-formed store (positive,
pairwise-distinct magazine ids): it returns the distinct magazines the
author has an article in, each id exactly once. -/
theorem authorMagazines_spec (db : DB) (a : AuthorObj)
    (hpos : ∀ x ∈ db.magazines, 0 < x.id)
    (hnodup : (db.magazines.map (fun x => x.id)).Nodup) :
    ∃ res : List MagazineObj, Author.magazines db false a = .ok res ∧
      (res.map (fun m => m.id)).Nodup ∧
      ∀ mid, mid ∈ res.map (fun m => m.id) ↔
        ((∃ m ∈ db.magazines, m.id = mid) ∧
          ∃ art ∈ db.articles, art.author_id = a.id ∧ art.magazine_id = mid) := by
  have hsub : (db.magazines.filter (fun m =>
      db.articles.any (fun art =>
        art.magazine_id == m.id && art.author_id == a.id))).Sublist db.magazines :=
    List.filter_sublist _
  have hidnodup : ((db.magazines.filter (fun m =>
      db.articles.any (fun art =>
        art.magazine_id == m.id && art.author_id == a.id))).map
        (fun x => x.id)).Nodup :=
    hnodup.sublist (hsub.map _)
  have htuples : ((db.magazines.filter (fun m =>
      db.articles.any (fun art =>
        art.magazine_id == m.id && art.author_id == a.id))).map
        (fun m => (m.id, m.name, m.category))).Nodup := by
    apply List.Nodup.of_map (f := Prod.fst)
    rw [List.map_map]
    exact hidnodup
  have hinit : ∀ t ∈ (db.magazines.filter (fun m =>
      db.articles.any (fun art =>
        art.magazine_id == m.id && art.author_id == a.id))).map
        (fun m => (m.id, m.name, m.category)),
      Magazine.init db (some t.1) (some t.2.1) (some t.2.2) =
        .ok (db, ⟨t.1, t.2.1, t.2.2⟩) := by
    intro t ht
    obtain ⟨m, hmfil, rfl⟩ := List.mem_map.mp ht
    have hmm : m ∈ db.magazines := hsub.subset hmfil
    have hfind : db.magazines.find? (fun x => x.id == m.id) = some m :=
      find_by_key_of_nodup (fun x => x.id) db.magazines m hmm hnodup
    unfold Magazine.init Magazine.load_by_id
    simp only
    rw [if_neg (not_not_intro (hpos m hmm)), hfind]
  refine ⟨((db.magazines.filter (fun m =>
      db.articles.any (fun art =>
        art.magazine_id == m.id && art.author_id == a.id))).map
        (fun m => (m.id, m.name, m.category))).map
        (fun t => (⟨t.1, t.2.1, t.2.2⟩ : MagazineObj)), ?_, ?_, ?_⟩
  · unfold Author.magazines
    rw [if_neg (by simp), List.dedup_eq_self.mpr htuples,
      loadMagazines_ok db _ hinit]
  · rw [List.map_map, List.map_map]
    exact hidnodup
  · intro mid
    rw [List.map_map, List.map_map]
    simp only [List.mem_map, Function.comp, List.mem_filter,
      List.any_eq_true, Bool.and_eq_true, beq_iff_eq]
    constructor
    · rintro ⟨m, ⟨hmm, art, hart, hartm, harta⟩, rfl⟩
      exact ⟨⟨m, hmm, rfl⟩, art, hart, harta, hartm⟩
    · rintro ⟨⟨m, hmm, rfl⟩, art, hart, harta, hartm⟩
      exact ⟨m, ⟨hmm, art, hart, hartm, harta⟩, rfl⟩

/-- Behaviour of `Magazine.contributors` on a well-formed store (author
names pairwise distinct, stored stripped and non-empty, as the entity
layer guarantees): it rebuilds each contributing author through the
name-based constructor — which reuses the stored row and leaves the
database unchanged — and yields each contributor exactly once. -/
theorem magazineContributors_spec (db : DB) (m : MagazineObj)
    (hnames : (db.authors.map (fun x => x.name)).Nodup)
    (hwf : ∀ x ∈ db.authors, strip x.name = x.name ∧ x.name.length ≠ 0) :
    ∃ res : List AuthorObj, Magazine.contributors db false m = .ok (db, res) ∧
      (res.map (fun a => a.name)).Nodup ∧
      ∀ nm, nm ∈ res.map (fun a => a.name) ↔
        ∃ x ∈ db.authors, x.name = nm ∧
          ∃ art ∈ db.articles, art.author_id = x.id ∧ art.magazine_id = m.id := by
  have hsub : (db.authors.filter (fun x =>
      db.articles.any (fun art =>
        art.author_id == x.id && art.magazine_id == m.id))).Sublist db.authors :=
    List.filter_sublist _
  have hfilnames : ((db.authors.filter (fun x =>
      db.articles.any (fun art =>
        art.author_id == x.id && art.magazine_id == m.id))).map
        (fun x => x.name)).Nodup :=
    hnames.sublist (hsub.map _)
  have hinit : ∀ n ∈ (db.authors.filter (fun x =>
      db.articles.any (fun art =>
        art.author_id == x.id && art.magazine_id == m.id))).map
        (fun x => x.name),
      ∃ a : AuthorObj, Author.init db none (some n) = .ok (db, a) ∧ a.name = n := by
    intro n hn
    obtain ⟨x, hxfil, rfl⟩ := List.mem_map.mp hn
    have hxx : x ∈ db.authors := hsub.subset hxfil
    obtain ⟨hstrip, hlen⟩ := hwf x hxx
    refine ⟨⟨x.id, strip x.name⟩, ?_, by rw [hstrip]⟩
    unfold Author.init Author.create
    simp only
    rw [if_pos hlen, hstrip, if_neg hlen,
      find_by_key_of_nodup (fun r => r.name) db.authors x hxx hnames]
  obtain ⟨res, hres, hresmap⟩ := hydrateAuthors_ok db _ hinit
  refine ⟨res, ?_, ?_, ?_⟩
  · unfold Magazine.contributors
    rw [if_neg (by simp), List.dedup_eq_self.mpr hfilnames, hres]
  · rw [hresmap]
    exact hfilnames
  · intro nm
    rw [hresmap]
    simp only [List.mem_map, List.mem_filter, List.any_eq_true,
      Bool.and_eq_true, beq_iff_eq]
    constructor
    · rintro ⟨x, ⟨hxx, art, hart, harta, hartm⟩, rfl⟩
      exact ⟨x, hxx, rfl, art, hart, harta, hartm⟩
    · rintro ⟨x, hxx, rfl, art, hart, harta, hartm⟩
      exact ⟨x, ⟨hxx, art, hart, harta, hartm⟩, rfl⟩

/-! ## C7 -/

/-- C7: on a well-formed store, `Author.magazines` yields each magazine the
author has an article in exactly once (the id list of the result is
duplicate-free and contains exactly the ids of magazines the author wrote
in), and `Magazine.contributors` yields each contributing author exactly
once (the name list of the result is duplicate-free and contains exactly
the names of authors with an article in the magazine) — in particular
several articles by the same author in the same magazine add nothing. -/
theorem c7_relationship_queries_distinct (db : DB) (a : AuthorObj)
    (m : MagazineObj)
    (hpos : ∀ x ∈ db.magazines, 0 < x.id)
    (hmids : (db.magazines.map (fun x => x.id)).Nodup)
    (hnames : (db.authors.map (fun x => x.name)).Nodup)
    (hwf : ∀ x ∈ db.authors, strip x.name = x.name ∧ x.name.length ≠ 0) :
    (∃ res : List MagazineObj, Author.magazines db false a = .ok res ∧
      (res.map (fun x => x.id)).Nodup ∧
      ∀ mid, mid ∈ res.map (fun x => x.id) ↔
        ((∃ x ∈ db.magazines, x.id = mid) ∧
          ∃ art ∈ db.articles, art.author_id = a.id ∧ art.magazine_id = mid)) ∧
    (∃ res : List AuthorObj, Magazine.contributors db false m = .ok (db, res) ∧
      (res.map (fun x => x.name)).Nodup ∧
      ∀ nm, nm ∈ res.map (fun x => x.name) ↔
        ∃ x ∈ db.authors, x.name = nm ∧
          ∃ art ∈ db.articles, art.author_id = x.id ∧
            art.magazine_id = m.id) :=
  ⟨authorMagazines_spec db a hpos hmids,
   magazineContributors_spec db m hnames hwf⟩

/-- Witness for C7: one author with TWO articles in the same magazine. -/
theorem c7_witness :
    ((∀ x ∈ (⟨[⟨1, "Alice"⟩], [⟨1, "TechDaily", "Tech"⟩],
        [⟨1, "Title One!", "body", 1, 1⟩, ⟨2, "Title Two!", "body", 1, 1⟩],
        2, 2, 3⟩ : DB).authors, strip x.name = x.name ∧ x.name.length ≠ 0) ∧
      ((⟨[⟨1, "Alice"⟩], [⟨1, "TechDaily", "Tech"⟩],
        [⟨1, "Title One!", "body", 1, 1⟩, ⟨2, "Title Two!", "body", 1, 1⟩],
        2, 2, 3⟩ : DB).articles.length = 2)) ∧
    ((∃ res : List MagazineObj,
      Author.magazines ⟨[⟨1, "Alice"⟩], [⟨1, "TechDaily", "Tech"⟩],
          [⟨1, "Title One!", "body", 1, 1⟩, ⟨2, "Title Two!", "body", 1, 1⟩],
          2, 2, 3⟩ false ⟨1, "Alice"⟩ = .ok res ∧
      (res.map (fun x => x.id)).Nodup ∧
      ∀ mid, mid ∈ res.map (fun x => x.id) ↔
        ((∃ x ∈ (⟨[⟨1, "Alice"⟩], [⟨1, "TechDaily", "Tech"⟩],
            [⟨1, "Title One!", "body", 1, 1⟩, ⟨2, "Title Two!", "body", 1, 1⟩],
            2, 2, 3⟩ : DB).magazines, x.id = mid) ∧
          ∃ art ∈ (⟨[⟨1, "Alice"⟩], [⟨1, "TechDaily", "Tech"⟩],
            [⟨1, "Title One!", "body", 1, 1⟩, ⟨2, "Title Two!", "body", 1, 1⟩],
            2, 2, 3⟩ : DB).articles,
            art.author_id = (⟨1, "Alice"⟩ : AuthorObj).id ∧
              art.magazine_id = mid)) ∧
    (∃ res : List AuthorObj,
      Magazine.contributors ⟨[⟨1, "Alice"⟩], [⟨1, "TechDaily", "Tech"⟩],
          [⟨1, "Title One!", "body", 1, 1⟩, ⟨2, "Title Two!", "body", 1, 1⟩],
          2, 2, 3⟩ false ⟨1, "TechDaily", "Tech"⟩ =
        .ok (⟨[⟨1, "Alice"⟩], [⟨1, "TechDaily", "Tech"⟩],
          [⟨1, "Title One!", "body", 1, 1⟩, ⟨2, "Title Two!", "body", 1, 1⟩],
          2, 2, 3⟩, res) ∧
      (res.map (fun x => x.name)).Nodup ∧
      ∀ nm, nm ∈ res.map (fun x => x.name) ↔
        ∃ x ∈ (⟨[⟨1, "Alice"⟩], [⟨1, "TechDaily", "Tech"⟩],
          [⟨1, "Title One!", "body", 1, 1⟩, ⟨2, "Title Two!", "body", 1, 1⟩],
          2, 2, 3⟩ : DB).authors, x.name = nm ∧
          ∃ art ∈ (⟨[⟨1, "Alice"⟩], [⟨1, "TechDaily", "Tech"⟩],
            [⟨1, "Title One!", "body", 1, 1⟩, ⟨2, "Title Two!", "body", 1, 1⟩],
            2, 2, 3⟩ : DB).articles,
            art.author_id = x.id ∧
              art.magazine_id = (⟨1, "TechDaily", "Tech"⟩ : MagazineObj).id)) := by
  refine ⟨⟨by decide, rfl⟩, ?_⟩
  exact c7_relationship_queries_distinct
    ⟨[⟨1, "Alice"⟩], [⟨1, "TechDaily", "Tech"⟩],
      [⟨1, "Title One!", "body", 1, 1⟩, ⟨2, "Title Two!", "body", 1, 1⟩], 2, 2, 3⟩
    ⟨1, "Alice"⟩ ⟨1, "TechDaily", "Tech"⟩
    (by decide) (by decide) (by decide) (by decide)

/-! ## C8 -/

/-- C8: on a Magazine object whose cached name (resp. category) is falsy
(the empty string), reading that accessor reloads the whole `magazines` row
by id, so the returned cache carries the stored values of BOTH fields — the
sibling field is refreshed as a side effect of the single read. -/
theorem c8_falsy_cache_reloads_whole_row (db : DB) (m : MagazineObj)
    (r : MagazineRow) (hid : 0 < m.id) (hmem : r ∈ db.magazines)
    (hrid : r.id = m.id) (hnodup : (db.magazines.map (fun x => x.id)).Nodup) :
    (m.name = "" →
      Magazine.nameGet db m = .ok (r.name, ⟨m.id, r.name, r.category⟩)) ∧
    (m.category = "" →
      Magazine.categoryGet db m = .ok (r.category, ⟨m.id, r.name, r.category⟩)) := by
  have hfind : db.magazines.find? (fun x => x.id == m.id) = some r := by
    rw [← hrid]
    exact find_by_key_of_nodup (fun x => x.id) db.magazines r hmem hnodup
  constructor
  · intro hfalsy
    unfold Magazine.nameGet Magazine.load_by_id
    rw [if_pos hfalsy, if_neg (not_not_intro hid), hfind]
  · intro hfalsy
    unfold Magazine.categoryGet Magazine.load_by_id
    rw [if_pos hfalsy, if_neg (not_not_intro hid), hfind]

/-- Witness for C8: a stub Magazine object with both caches empty against a
store holding row (1, TechDaily, Tech). -/
theorem c8_witness :
    ((⟨1, "", ""⟩ : MagazineObj).name = "") ∧
    ((⟨1, "", ""⟩ : MagazineObj).category = "") ∧
    ((⟨1, "TechDaily", "Tech"⟩ : MagazineRow) ∈
      (⟨[], [⟨1, "TechDaily", "Tech"⟩], [], 1, 2, 1⟩ : DB).magazines) ∧
    Magazine.nameGet ⟨[], [⟨1, "TechDaily", "Tech"⟩], [], 1, 2, 1⟩ ⟨1, "", ""⟩ =
      .ok ("TechDaily", ⟨1, "TechDaily", "Tech"⟩) ∧
    Magazine.categoryGet ⟨[], [⟨1, "TechDaily", "Tech"⟩], [], 1, 2, 1⟩ ⟨1, "", ""⟩ =
      .ok ("Tech", ⟨1, "TechDaily", "Tech"⟩) := by
  refine ⟨rfl, rfl, by decide, ?_, ?_⟩
  · exact (c8_falsy_cache_reloads_whole_row
      ⟨[], [⟨1, "TechDaily", "Tech"⟩], [], 1, 2, 1⟩ ⟨1, "", ""⟩
      ⟨1, "TechDaily", "Tech"⟩ (by decide) (by decide) (by decide) (by decide)).1 rfl
  · exact (c8_falsy_cache_reloads_whole_row
      ⟨[], [⟨1, "TechDaily", "Tech"⟩], [], 1, 2, 1⟩ ⟨1, "", ""⟩
      ⟨1, "TechDaily", "Tech"⟩ (by decide) (by decide) (by decide) (by decide)).2 rfl

/-! ## C10 -/

/-- C10 counterexample: at a title of length 7 whose stripped form has
length 3, with valid content, positive ids and both referenced rows
present, construction passes the entity's title validation but does NOT
attempt the insert: `Article.create` ends in the `TypeError` from
`Author.get`'s broken `cls.fetch_data` call, which differs from the outcome
an insert attempt of the stripped title would produce (the schema CHECK
StorageError) — so no insert of a too-short title is ever attempted. -/
theorem c10_counterexample :
    (5 ≤ "  abc  ".length) ∧ ("  abc  ".length ≤ 50) ∧
    ((strip "  abc  ").length < 5) ∧
    Article.create ⟨[⟨1, "Alice"⟩], [⟨1, "TechDaily", "Tech"⟩], [], 2, 2, 1⟩
        "  abc  " "Some body" 1 1 =
      .error (.typeError
        "fetch_data() missing 1 required positional argument: \x27params\x27") ∧
    Article.insertArticle ⟨[⟨1, "Alice"⟩], [⟨1, "TechDaily", "Tech"⟩], [], 2, 2, 1⟩
        (strip "  abc  ") (strip "Some body") 1 1 =
      .error (.storageError "CHECK constraint failed: articles") ∧
    Article.create ⟨[⟨1, "Alice"⟩], [⟨1, "TechDaily", "Tech"⟩], [], 2, 2, 1⟩
        "  abc  " "Some body" 1 1 ≠
      Article.insertArticle ⟨[⟨1, "Alice"⟩], [⟨1, "TechDaily", "Tech"⟩], [], 2, 2, 1⟩
        (strip "  abc  ") (strip "Some body") 1 1 := by
  refine ⟨by decide, by decide, by decide, rfl, rfl, ?_⟩
  intro h
  rw [show Article.create ⟨[⟨1, "Alice"⟩], [⟨1, "TechDaily", "Tech"⟩], [], 2, 2, 1⟩
        "  abc  " "Some body" 1 1 =
      .error (.typeError
        "fetch_data() missing 1 required positional argument: \x27params\x27") from rfl,
    show Article.insertArticle ⟨[⟨1, "Alice"⟩], [⟨1, "TechDaily", "Tech"⟩], [], 2, 2, 1⟩
        (strip "  abc  ") (strip "Some body") 1 1 =
      .error (.storageError "CHECK constraint failed: articles") from rfl] at h
  exact Err.noConfusion (Except.error.inj h)

/-- C10 amended: a title whose un-stripped length lies in 5–50 but whose
stripped length is below 5 passes the entity's own title validation (the
check reads the un-stripped string), but no insert is attempted: before the
INSERT — which in the code text would store the stripped, too-short title —
construction fails with the `TypeError` raised inside `Author.get`'s broken
`cls.fetch_data` call, uncaught by the `except ValueError` wrapper. -/
theorem c10_short_strip_passes_validation_no_insert (db : DB)
    (title content : String) (aid mid : Int)
    (ht1 : 5 ≤ title.length) (ht2 : title.length ≤ 50)
    (_hshort : (strip title).length < 5)
    (hc : 0 < (strip content).length) (ha : 0 < aid) (hm : 0 < mid) :
    Article.create db title content aid mid =
      .error (.typeError
        "fetch_data() missing 1 required positional argument: \x27params\x27") := by
  unfold Article.create
  rw [if_neg (not_not_intro ⟨ht1, ht2⟩), if_neg (not_not_intro hc),
      if_neg (not_not_intro ha), if_neg (not_not_intro hm)]
  unfold Author.get
  rw [if_neg (not_not_intro ha)]

/-- Witness for the amended C10 with the 7-character title `"  abc  "`,
whose stripped form `"abc"` has length 3. -/
theorem c10_witness :
    (5 ≤ "  abc  ".length) ∧ ("  abc  ".length ≤ 50) ∧
    ((strip "  abc  ").length < 5) ∧
    Article.create ⟨[⟨1, "Alice"⟩], [⟨1, "TechDaily", "Tech"⟩], [], 2, 2, 1⟩
        "  abc  " "Some body" 1 1 =
      .error (.typeError
        "fetch_data() missing 1 required positional argument: \x27params\x27") := by
  refine ⟨by decide, by decide, by decide, ?_⟩
  exact c10_short_strip_passes_validation_no_insert
    ⟨[⟨1, "Alice"⟩], [⟨1, "TechDaily", "Tech"⟩], [], 2, 2, 1⟩
    "  abc  " "Some body" 1 1 (by decide) (by decide) (by decide) (by decide)
    (by decide) (by decide)
